import Mathlib

/-!
Verification development for the event-finder script (`event_agent.py`).

The embedding models, over `List Char` / `String`:
  * the two regular expressions of `parse_user_input` via a small
    backtracking matcher with Python `re.search` semantics (leftmost
    position wins, alternation priority left to right, greedy and lazy
    quantifiers, one capture group, zero-width lookahead, `$`);
  * calendar-date arithmetic as Python's `datetime` does it (proleptic
    Gregorian ordinals, `weekday()` with Monday = 0, `timedelta` addition);
  * the Ticketmaster response mapping of `search_events` over a JSON value
    type, with Python `dict.get` defaults, truthiness, and the exceptions
    (`KeyError`/`TypeError`/`IndexError`/`AttributeError`) that uncaught
    paths raise;
  * `find_events`, recording whether the agent/task pipeline (and with it
    the event-search adapter) is ever launched.

`datetime.now()` is impure, so `parse_user_input` takes the current date
as an explicit `today` argument.  Printing a diagnostic is modelled as a
`Bool` flag next to the returned value.  `json.dumps` is modelled by
returning the JSON value itself.  Python `str()` of a JSON number is
modelled for integer-valued numbers (the only kind exercised here).
-/

/-! ## Basic string helpers (Python `str.lower`, `str.strip`, `in`) -/

/-- Python whitespace characters recognised by `str.strip` and `\s`
(ASCII range; the inputs of this program contain only ASCII). -/
def isPySpace (c : Char) : Bool :=
  c = ' ' || c = '\t' || c = '\n' || c = '\x0b' || c = '\x0c' || c = '\r'

/-- Python `str.lower()` applied to the character list of the input. -/
def lowerData (s : String) : List Char :=
  s.data.map Char.toLower

/-- Python `str.strip()`: drop whitespace from both ends. -/
def pyStrip (l : List Char) : List Char :=
  ((l.dropWhile isPySpace).reverse.dropWhile isPySpace).reverse

/-- Python substring containment `needle in hay` on character lists. -/
def strInAux (n : List Char) : List Char → Bool
  | [] => n.isEmpty
  | x :: xs => n.isPrefixOf (x :: xs) || strInAux n xs

/-- Python `needle in hay` on strings. -/
def strIn (n hay : String) : Bool :=
  strInAux n.data hay.data

/-- Python `ch in s` for a single character (used for `"-" in date_str`). -/
def hasChar : List Char → Char → Bool
  | [], _ => false
  | x :: xs, c => if x = c then true else hasChar xs c

/-! ## Calendar dates, as Python's `datetime` handles them

Python's `datetime.date` stores year/month/day and adds a `timedelta`
through the proleptic-Gregorian ordinal (`date.toordinal`, where
0001-01-01 has ordinal 1 and is a Monday, so `weekday() == 0`). -/

structure Date where
  year : Nat
  month : Nat
  day : Nat
deriving DecidableEq, Repr

def isLeap (y : Nat) : Bool :=
  (y % 4 = 0 && y % 100 ≠ 0) || y % 400 = 0

def daysInMonth (y m : Nat) : Nat :=
  if m = 2 then (if isLeap y then 29 else 28)
  else if m = 4 ∨ m = 6 ∨ m = 9 ∨ m = 11 then 30
  else 31

/-- Python `date.toordinal()`: days since 0000-12-31 in the proleptic Gregorian
calendar (0001-01-01 ↦ 1).  Closed form over 400-year eras. -/
def toOrdinal (d : Date) : Nat :=
  let y := if d.month ≤ 2 then d.year - 1 else d.year
  let era := y / 400
  let yoe := y % 400
  let mp := if 2 < d.month then d.month - 3 else d.month + 9
  let doy := (153 * mp + 2) / 5 + d.day - 1
  let doe := yoe * 365 + yoe / 4 - yoe / 100 + doy
  era * 146097 + doe - 305

/-- Inverse of `toOrdinal` (`date.fromordinal`). -/
def fromOrdinal (ord : Nat) : Date :=
  let z := ord + 305
  let era := z / 146097
  let doe := z % 146097
  let yoe := (doe - doe / 1460 + doe / 36524 - doe / 146096) / 365
  let y := yoe + era * 400
  let doy := doe - (365 * yoe + yoe / 4 - yoe / 100)
  let mp := (5 * doy + 2) / 153
  let dd := doy - (153 * mp + 2) / 5 + 1
  let mm := if mp < 10 then mp + 3 else mp - 9
  ⟨if mm ≤ 2 then y + 1 else y, mm, dd⟩

/-- Python `today + timedelta(days=n)`. -/
def addDays (d : Date) (n : Nat) : Date :=
  fromOrdinal (toOrdinal d + n)

/-- Python `date.weekday()`: Monday = 0 … Sunday = 6. -/
def weekday (d : Date) : Nat :=
  (toOrdinal d + 6) % 7

/-- The expression `(5 - today.weekday()) % 7` with Python's nonnegative `%` on `int`. -/
def weekendDelta (d : Date) : Nat :=
  (((5 : Int) - (weekday d : Int)).emod 7).toNat

/-- Zero-pad a decimal rendering to `w` digits (as `strftime` does for
`%Y`/`%m`/`%d` in the 4-digit-year range this program works in). -/
def padZ (w n : Nat) : String :=
  let s := toString n
  String.mk (List.replicate (w - s.length) '0') ++ s

/-- Formatting as `dt.strftime("%Y-%m-%d")` does. -/
def fmtDate (d : Date) : String :=
  padZ 4 d.year ++ "-" ++ padZ 2 d.month ++ "-" ++ padZ 2 d.day

/-! ## A small backtracking regex matcher (Python `re` semantics)

Only the constructs used by the two patterns of `parse_user_input`:
literals, the character classes `\s`, `\d` and `[a-zA-Z\s,]`, sequencing,
prioritised alternation, greedy and lazy repetition, one capture group,
zero-width lookahead `(?=…)`, and the anchor `$` (end of string, or just
before one trailing newline, as in Python without `re.MULTILINE`).

`mrun` is a continuation-passing matcher; alternatives are tried exactly
in Python's backtracking order, so the first result it finds is the one
`re` would produce.  The continuation answers with `some cap` on success
(`cap` = contents of the capture group, if the group participated).
A fuel argument makes termination structural; `reSearch` supplies fuel
that is far larger than the longest possible backtracking call chain for
these patterns (bodies of all repetitions consume at least one
character), so the fuel never runs out. -/

inductive CC where
  | space
  | digit
  | locChar
deriving DecidableEq, Repr

def ccMatch : CC → Char → Bool
  | .space, c => isPySpace c
  | .digit, c => c.isDigit
  | .locChar, c => c.isAlpha || isPySpace c || c = ','

inductive RE where
  | eps
  | lit (c : Char)
  | cls (cc : CC)
  | seq (a b : RE)
  | alt (a b : RE)
  | starG (a : RE)
  | starL (a : RE)
  | grp (a : RE)
  | look (a : RE)
  | eol
deriving Repr

def reSize : RE → Nat
  | .eps => 1
  | .lit _ => 1
  | .cls _ => 1
  | .seq a b => reSize a + reSize b + 1
  | .alt a b => reSize a + reSize b + 1
  | .starG a => reSize a + 1
  | .starL a => reSize a + 1
  | .grp a => reSize a + 1
  | .look a => reSize a + 1
  | .eol => 1

def mrun : Nat → RE → List Char → (List Char → Option (Option (List Char))) →
    Option (Option (List Char))
  | 0, _, _, _ => none
  | _ + 1, .eps, s, k => k s
  | _ + 1, .lit c, s, k =>
    match s with
    | [] => none
    | x :: xs => if x = c then k xs else none
  | _ + 1, .cls cc, s, k =>
    match s with
    | [] => none
    | x :: xs => if ccMatch cc x then k xs else none
  | fuel + 1, .seq a b, s, k => mrun fuel a s fun s1 => mrun fuel b s1 k
  | fuel + 1, .alt a b, s, k =>
    match mrun fuel a s k with
    | some r => some r
    | none => mrun fuel b s k
  | fuel + 1, .starG a, s, k =>
    match mrun fuel a s
        (fun s1 => if s1.length < s.length then mrun fuel (.starG a) s1 k else none) with
    | some r => some r
    | none => k s
  | fuel + 1, .starL a, s, k =>
    match k s with
    | some r => some r
    | none =>
      mrun fuel a s
        fun s1 => if s1.length < s.length then mrun fuel (.starL a) s1 k else none
  | fuel + 1, .grp a, s, k =>
    mrun fuel a s fun s1 =>
      match k s1 with
      | none => none
      | some _ => some (some (s.take (s.length - s1.length)))
  | fuel + 1, .look a, s, k =>
    match mrun fuel a s (fun _ => some none) with
    | some _ => k s
    | none => none
  | _ + 1, .eol, s, k =>
    if s = [] ∨ s = ['\n'] then k s else none

/-- Python `re.search`: try a match at every position, leftmost first. -/
def searchFrom (fuel : Nat) (r : RE) : List Char → Option (Option (List Char))
  | [] =>
    match mrun fuel r [] (fun _ => some none) with
    | some cap => some cap
    | none => none
  | x :: xs =>
    match mrun fuel r (x :: xs) (fun _ => some none) with
    | some cap => some cap
    | none => searchFrom fuel r xs

def reSearch (r : RE) (s : List Char) : Option (Option (List Char)) :=
  searchFrom ((s.length + 2) * (reSize r + 8) * 4) r s

/-- A sequence of literal characters. -/
def reStr (w : String) : RE :=
  w.data.foldr (fun c acc => .seq (.lit c) acc) .eps

/-- Greedy `X+`. -/
def rePlusG (a : RE) : RE := .seq a (.starG a)

/-- Lazy `X+?`. -/
def rePlusL (a : RE) : RE := .seq a (.starL a)

/-- Whitespace runs `\s+` and `\s*`. -/
def wsPlus : RE := rePlusG (.cls .space)

def wsStar : RE := .starG (.cls .space)

/-- Digit runs `\d{n}`. -/
def digits : Nat → RE
  | 0 => .eps
  | n + 1 => .seq (.cls .digit) (digits n)

/-! The location pattern of `parse_user_input` (lines 27–30):

    (?:in|at|near)\s+([a-zA-Z\s,]+?)(?=\s+(?:this|next|tomorrow|today|happening|\d{4}|$)|\s*$)
-/

def locBoundary : RE :=
  .alt (reStr "this") (.alt (reStr "next") (.alt (reStr "tomorrow")
    (.alt (reStr "today") (.alt (reStr "happening") (.alt (digits 4) .eol)))))

def locLook : RE :=
  .look (.alt (.seq wsPlus locBoundary) (.seq wsStar .eol))

def locationRE : RE :=
  .seq (.alt (reStr "in") (.alt (reStr "at") (reStr "near")))
    (.seq wsPlus (.seq (.grp (rePlusL (.cls .locChar))) locLook))

/-! The date pattern of `parse_user_input` (lines 35–38):

    (this\s+(?:weekend|week)|next\s+(?:weekend|week)|tomorrow|today|\d{4}-\d{2}-\d{2}|\d{2}/\d{2}/\d{4})
-/

def dateRE : RE :=
  .grp (.alt (.seq (reStr "this") (.seq wsPlus (.alt (reStr "weekend") (reStr "week"))))
    (.alt (.seq (reStr "next") (.seq wsPlus (.alt (reStr "weekend") (reStr "week"))))
      (.alt (reStr "tomorrow")
        (.alt (reStr "today")
          (.alt (.seq (digits 4) (.seq (.lit '-') (.seq (digits 2) (.seq (.lit '-') (digits 2)))))
            (.seq (digits 2) (.seq (.lit '/') (.seq (digits 2) (.seq (.lit '/') (digits 4))))))))))

/-- Python `re.search(location_pattern, text_lower)` followed by
`match.group(1).strip()`, as an `Option`. -/
def locSearch (input : String) : Option String :=
  match reSearch locationRE (lowerData input) with
  | none => none
  | some cap => some (String.mk (pyStrip (cap.getD [])))

/-- Python `re.search(date_pattern, text_lower)` followed by
`match.group(1).strip()`, as an `Option`. -/
def dateSearch (input : String) : Option String :=
  match reSearch dateRE (lowerData input) with
  | none => none
  | some cap => some (String.mk (pyStrip (cap.getD [])))

/-! ## `parse_user_input` (lines 23–92) -/

/-- Decimal value of an ASCII digit. -/
def digitVal (c : Char) : Nat :=
  c.toNat - '0'.toNat

/-- Calendar validity as `datetime.strptime` checks it
(`MINYEAR = 1`, `MAXYEAR = 9999`, real month lengths). -/
def isValidYMD (y m d : Nat) : Bool :=
  1 ≤ y && y ≤ 9999 && 1 ≤ m && m ≤ 12 && 1 ≤ d && d ≤ daysInMonth y m

/-- Python `datetime.strptime(date_str, "%Y-%m-%d")` on a string the date regex
matched with its `\d{4}-\d{2}-\d{2}` alternative: `none` = `ValueError`. -/
def parseYMDDash : List Char → Option Date
  | [a, b, c, d, '-', e, f, '-', g, h] =>
    if a.isDigit && b.isDigit && c.isDigit && d.isDigit &&
        e.isDigit && f.isDigit && g.isDigit && h.isDigit then
      let y := digitVal a * 1000 + digitVal b * 100 + digitVal c * 10 + digitVal d
      let m := digitVal e * 10 + digitVal f
      let dd := digitVal g * 10 + digitVal h
      if isValidYMD y m dd then some ⟨y, m, dd⟩ else none
    else none
  | _ => none

/-- Python `datetime.strptime(date_str, "%d/%m/%Y")` on a string the date regex
matched with its `\d{2}/\d{2}/\d{4}` alternative: `none` = `ValueError`. -/
def parseDMYSlash : List Char → Option Date
  | [a, b, '/', c, d, '/', e, f, g, h] =>
    if a.isDigit && b.isDigit && c.isDigit && d.isDigit &&
        e.isDigit && f.isDigit && g.isDigit && h.isDigit then
      let dd := digitVal a * 10 + digitVal b
      let m := digitVal c * 10 + digitVal d
      let y := digitVal e * 1000 + digitVal f * 100 + digitVal g * 10 + digitVal h
      if isValidYMD y m dd then some ⟨y, m, dd⟩ else none
    else none
  | _ => none

/-- The branch chain of lines 43–67 applied to the stripped match
`date_str`; second component records whether the
`Warning: Could not parse date` diagnostic is printed. -/
def dateResolve (ds : String) (today : Date) : Option String × Bool :=
  if ds = "today" then (some (fmtDate today), false)
  else if ds = "tomorrow" then (some (fmtDate (addDays today 1)), false)
  else if strIn "this weekend" ds then
    (some (fmtDate (addDays today (weekendDelta today))), false)
  else if strIn "next weekend" ds then
    (some (fmtDate (addDays today (weekendDelta today + 7))), false)
  else if strIn "this week" ds then (some (fmtDate today), false)
  else if strIn "next week" ds then (some (fmtDate (addDays today 7)), false)
  else if hasChar ds.data '-' then
    match parseYMDDash ds.data with
    | some dt => (some (fmtDate dt), false)
    | none => (none, true)
  else if hasChar ds.data '/' then
    match parseDMYSlash ds.data with
    | some dt => (some (fmtDate dt), false)
    | none => (none, true)
  else (none, false)

/-- The `parsed_date` produced by lines 39–67. -/
def dateOf (input : String) (today : Date) : Option String :=
  match dateSearch input with
  | none => none
  | some ds => (dateResolve ds today).1

/-- Whether lines 58–67 print the date warning. -/
def dateWarned (input : String) (today : Date) : Bool :=
  match dateSearch input with
  | none => false
  | some ds => (dateResolve ds today).2

/-- The `preference_keywords` dict of lines 70–81, in insertion order
(Python dicts iterate in insertion order). -/
def preference_keywords : List (String × String) :=
  [("music", "Music"), ("concert", "Music"), ("concerts", "Music"),
   ("sports", "Sports"), ("theater", "Arts & Theatre"),
   ("theatre", "Arts & Theatre"), ("family", "Family"),
   ("comedy", "Arts & Theatre"), ("musical", "Arts & Theatre"),
   ("dance", "Arts & Theatre")]

/-- The `for keyword, category in preference_keywords.items()` loop with
`break` on the first keyword contained in the lowered text. -/
def findPreference : List (String × String) → List Char → Option String
  | [], _ => none
  | (k, v) :: rest, t => if strInAux k.data t then some v else findPreference rest t

/-- The dict returned by `parse_user_input`. -/
structure ParsedInput where
  location : Option String
  date : Option String
  preferences : Option String
deriving DecidableEq, Repr

/-- The function `parse_user_input` (lines 23–92), with `datetime.now()` passed in as
`today`. -/
def parse_user_input (input : String) (today : Date) : ParsedInput :=
  { location := locSearch input
  , date := dateOf input today
  , preferences := findPreference preference_keywords (lowerData input) }

/-! ## `find_events` (lines 285–304)

When the location is missing (Python `if not location:` — `None` or the
empty string) the function returns the error dict before any task or crew
is created, so the event-search adapter cannot be reached.  Otherwise a
task is created and handed to the agent pipeline; the second component
counts how many times that pipeline is launched. -/

inductive FindOutcome where
  | error (obj : List (String × String))
  | dispatched (location : String) (date preferences : Option String)
deriving DecidableEq, Repr

def find_events (input : String) (today : Date) : FindOutcome × Nat :=
  let p := parse_user_input input today
  match p.location with
  | none => (.error [("error", "Location is required. Please specify a city or location.")], 0)
  | some loc =>
    if loc = "" then
      (.error [("error", "Location is required. Please specify a city or location.")], 0)
    else
      (.dispatched loc p.date p.preferences, 1)

/-! ## JSON values and the Python dict/list operations used by
`search_events` (lines 142–223) -/

inductive Json where
  | null
  | bool (b : Bool)
  | num (n : Int)
  | str (s : String)
  | arr (xs : List Json)
  | obj (fields : List (String × Json))
deriving Repr

/-- Uncaught Python exceptions the adapter can raise.  Only
`requests.exceptions.RequestException` is caught by `search_events`. -/
inductive PyErr where
  | keyError
  | typeError
  | indexError
  | attributeError
deriving DecidableEq, Repr

/-- Dictionary key lookup (JSON objects have unique keys; first wins). -/
def jLookup : List (String × Json) → String → Option Json
  | [], _ => none
  | (k, v) :: rest, key => if k = key then some v else jLookup rest key

/-- Python `d[key]` on a known dict: `KeyError` when absent. -/
def jIndexO (fs : List (String × Json)) (key : String) : Except PyErr Json :=
  match jLookup fs key with
  | some v => .ok v
  | none => .error .keyError

/-- Python `x[key]` with a string key: `KeyError` on a dict without the
key, `TypeError` on non-dicts. -/
def jIndex (j : Json) (key : String) : Except PyErr Json :=
  match j with
  | .obj fs => jIndexO fs key
  | _ => .error .typeError

/-- Python `x.get(key, default)`: only dicts have `.get`
(`AttributeError` otherwise). -/
def pyGetD (j : Json) (key : String) (dflt : Json) : Except PyErr Json :=
  match j with
  | .obj fs => .ok ((jLookup fs key).getD dflt)
  | _ => .error .attributeError

/-- Python truthiness of a JSON value. -/
def jTruthy : Json → Bool
  | .null => false
  | .bool b => b
  | .num n => n ≠ 0
  | .str s => ¬s.data.isEmpty
  | .arr xs => ¬xs.isEmpty
  | .obj fs => ¬fs.isEmpty

/-- Python `str()` of a JSON value inside the price f-string.  Numbers are
integer-valued in this model; containers (never exercised by the claims)
are rendered with a fixed marker rather than a full `repr`. -/
def pyStr : Json → String
  | .str s => s
  | .num n => toString n
  | .bool true => "True"
  | .bool false => "False"
  | .null => "None"
  | .arr _ => "<list>"
  | .obj _ => "<dict>"

/-- One formatted event dict (lines 202–215).  A Lean structure always has
every field, mirroring that the Python dict literal always contains every
key.  The raw upstream values are kept as `Json`; `price_range` is the
string built at lines 187–193. -/
structure EventRecord where
  name : Json
  date : Json
  time : Json
  description : Json
  status : Json
  ticket_url : Json
  price_range : String
  venue : Json
  city : Json
  state : Json
  latitude : Json
  longitude : Json
deriving Repr

/-- Lines 187–193: the `price_str` computation, including the exceptions
Python would raise when `priceRanges` is truthy but not a nonempty list of
dicts. -/
def priceOf (fs : List (String × Json)) : Except PyErr String :=
  if jTruthy ((jLookup fs "priceRanges").getD .null) then
    match jIndexO fs "priceRanges" with
    | .error e => .error e
    | .ok (.arr (.obj prfs :: _)) =>
      .ok (pyStr ((jLookup prfs "min").getD (.str "N/A")) ++ " - " ++
        pyStr ((jLookup prfs "max").getD (.str "N/A")) ++ " " ++
        pyStr ((jLookup prfs "currency").getD (.str "USD")))
    | .ok (.arr (_ :: _)) => .error .attributeError
    | .ok (.arr []) => .error .indexError
    | .ok (.str s) => .error (if s.data.isEmpty then .indexError else .attributeError)
    | .ok (.obj _) => .error .keyError
    | .ok _ => .error .typeError
  else
    .ok "Price not available"

/-- Lines 195–200: `venue = event['_embedded']['venues'][0]` and the venue
field extraction (name, city, state, latitude, longitude). -/
def venueOf (fs : List (String × Json)) : Except PyErr (Json × Json × Json × Json × Json) :=
  match jIndexO fs "_embedded" with
  | .error e => .error e
  | .ok emb =>
    match jIndex emb "venues" with
    | .error e => .error e
    | .ok vens =>
      match vens with
      | .arr (.obj vfs :: _) =>
        match pyGetD ((jLookup vfs "city").getD (.obj [])) "name" (.str "N/A") with
        | .error e => .error e
        | .ok cityName =>
          match pyGetD ((jLookup vfs "state").getD (.obj [])) "name" (.str "N/A") with
          | .error e => .error e
          | .ok stateName =>
            match pyGetD ((jLookup vfs "location").getD (.obj [])) "latitude" .null with
            | .error e => .error e
            | .ok lat =>
              match pyGetD ((jLookup vfs "location").getD (.obj [])) "longitude" .null with
              | .error e => .error e
              | .ok lng =>
                .ok ((jLookup vfs "name").getD (.str "Unknown venue"), cityName, stateName, lat, lng)
      | .arr (_ :: _) => .error .attributeError
      | .arr [] => .error .indexError
      | .str s => .error (if s.data.isEmpty then .indexError else .attributeError)
      | .obj _ => .error .keyError
      | _ => .error .typeError

/-- The body of `for event in events` (lines 180–217) for one item. -/
def formatEvent (event : Json) : Except PyErr EventRecord := do
  match event with
  | .obj fs =>
    let dates ← jIndexO fs "dates"
    let start ← jIndex dates "start"
    let localDate ← pyGetD start "localDate" (.str "TBA")
    let localTime ← pyGetD start "localTime" (.str "TBA")
    let statusObj ← jIndex dates "status"
    let statusCode ← pyGetD statusObj "code" (.str "Unknown")
    let price ← priceOf fs
    let v ← venueOf fs
    pure
      { name := (jLookup fs "name").getD (.str "No event name")
      , date := localDate
      , time := localTime
      , description := (jLookup fs "description").getD (.str "No event description")
      , status := statusCode
      , ticket_url := (jLookup fs "url").getD (.str "Not available")
      , price_range := price
      , venue := v.1
      , city := v.2.1
      , state := v.2.2.1
      , latitude := v.2.2.2.1
      , longitude := v.2.2.2.2 }
  | _ => .error .attributeError

/-! ## `search_events`: parameter mapping and top-level control flow -/

/-- The `params` dict built at lines 149–167. -/
structure Params where
  apikey : String
  sort : String
  size : Nat
  countryCode : Option String
  city : Option String
  startDateTime : Option String
  endDateTime : Option String
  classificationName : Option String
deriving DecidableEq, Repr

/-- Python `location.lower()`. -/
def strLower (s : String) : String :=
  String.mk (lowerData s)

/-- Lines 149–167.  Python's `if location and location.lower() in
["germany", "deutschland"]`: the empty string is falsy and goes to the
`city` branch. -/
def buildParams (apikey location : String) (date preferences : Option String) : Params :=
  let base : Params :=
    { apikey := apikey, sort := "relevance,desc", size := 10, countryCode := none
    , city := none, startDateTime := none, endDateTime := none, classificationName := none }
  let p1 :=
    if ¬location.data.isEmpty ∧ (strLower location = "germany" ∨ strLower location = "deutschland")
    then { base with countryCode := some "DE" }
    else { base with city := some location }
  let p2 :=
    match date with
    | some d =>
      { p1 with
        startDateTime := some (d ++ "T00:00:00Z")
        endDateTime := some (d ++ "T23:59:59Z") }
    | none => p1
  match preferences with
  | some c => { p2 with classificationName := some c }
  | none => p2

/-- Python `'_embedded' not in data` works on dicts (key test), lists
(membership) and strings (substring) but raises `TypeError` on other JSON
values.  This is the positive `in`. -/
def pyIn (key : String) (j : Json) : Except PyErr Bool :=
  match j with
  | .obj fs => .ok (jLookup fs key).isSome
  | .arr xs => .ok (xs.any fun x => match x with | .str s => s = key | _ => false)
  | .str s => .ok (strIn key s)
  | _ => .error .typeError

/-- The `for event in events` loop: stops at the first uncaught
exception. -/
def mapAll : List Json → Except PyErr (List EventRecord)
  | [] => .ok []
  | e :: rest =>
    match formatEvent e with
    | .error err => .error err
    | .ok r =>
      match mapAll rest with
      | .error err => .error err
      | .ok rs => .ok (r :: rs)

/-- The dict appended to `formatted_events` for one record, as the JSON
value `json.dumps` would serialise. -/
def recordToJson (r : EventRecord) : Json :=
  .obj [("name", r.name), ("date", r.date), ("time", r.time),
    ("description", r.description), ("status", r.status),
    ("ticket_url", r.ticket_url), ("price_range", .str r.price_range),
    ("venue", r.venue), ("city", r.city), ("state", r.state),
    ("latitude", r.latitude), ("longitude", r.longitude)]

/-- The outcome of one `requests.get` call: either a
`requests.exceptions.RequestException` during the request, or a response
with an HTTP status and a parsed JSON body. -/
inductive Transport where
  | fail
  | resp (status : Nat) (body : Json)
deriving Repr

/-- What `search_events` does for its caller: return a JSON value
(`json.dumps` result; `diag` records the `Error fetching events`
diagnostic print), or let an uncaught exception propagate. -/
inductive SOutcome where
  | raised (e : PyErr)
  | returned (out : Json) (diag : Bool)
deriving Repr

/-- The function `search_events` (lines 142–223).  The single outbound GET is modelled
by the one `Transport` argument; its parameters are the first component.
`response.raise_for_status()` raises `requests.exceptions.HTTPError` (a
`RequestException`, hence caught) exactly for 4xx/5xx statuses. -/
def search_events (apikey location : String) (date preferences : Option String)
    (t : Transport) : Params × SOutcome :=
  let params := buildParams apikey location date preferences
  (params,
    match t with
    | .fail => .returned (.arr []) true
    | .resp status body =>
      if 400 ≤ status ∧ status < 600 then .returned (.arr []) true
      else
        match pyIn "_embedded" body with
        | .error e => .raised e
        | .ok b =>
          if b then
            match jIndex body "_embedded" with
            | .error e => .raised e
            | .ok emb =>
              match pyGetD emb "events" (.arr []) with
              | .error e => .raised e
              | .ok evs =>
                match evs with
                | .arr items =>
                  match mapAll items with
                  | .error e => .raised e
                  | .ok recs => .returned (.arr (recs.map recordToJson)) false
                | _ => .raised .typeError
          else .returned (.arr []) false)

/-! ## Helper lemmas -/

theorem except_bind_ok_iff {ε α β : Type} (x : Except ε α) (f : α → Except ε β) (b : β) :
    (x >>= f) = .ok b ↔ ∃ a, x = .ok a ∧ f a = .ok b := by
  cases x <;> simp [Bind.bind, Except.bind]

theorem findPreference_eq_find (tbl : List (String × String)) (t : List Char) :
    findPreference tbl t = (tbl.find? fun kv => strInAux kv.1.data t).map Prod.snd := by
  induction tbl with
  | nil => rfl
  | cons kv rest ih =>
    cases hkv : strInAux kv.1.data t with
    | true => simp [findPreference, hkv, List.find?_cons_of_pos _ hkv]
    | false =>
      have hneg : ¬(strInAux kv.1.data t = true) := by simp [hkv]
      simp [findPreference, hkv, List.find?_cons_of_neg _ hneg, ih]

theorem hasChar_of_mem {l : List Char} {c : Char} (h : c ∈ l) : hasChar l c = true := by
  induction l with
  | nil => cases h
  | cons x xs ih =>
    by_cases hx : x = c
    · simp [hasChar, hx]
    · rcases List.mem_cons.mp h with hc | hc
      · exact absurd hc.symm hx
      · simp [hasChar, hx, ih hc]

theorem hasChar_eq_false {l : List Char} {c : Char} (h : ∀ x ∈ l, x ≠ c) :
    hasChar l c = false := by
  induction l with
  | nil => rfl
  | cons x xs ih =>
    have hx : x ≠ c := h x (List.mem_cons_self x xs)
    simp only [hasChar, hx, if_false]
    exact ih fun y hy => h y (List.mem_cons_of_mem x hy)

theorem mem_of_isPrefixOfB : ∀ {l1 l2 : List Char}, l1.isPrefixOf l2 = true →
    ∀ {c : Char}, c ∈ l1 → c ∈ l2 := by
  intro l1
  induction l1 with
  | nil => intro l2 _ c hc; cases hc
  | cons a as ih =>
    intro l2 hp c hc
    cases l2 with
    | nil => simp [List.isPrefixOf] at hp
    | cons b bs =>
      simp only [List.isPrefixOf, Bool.and_eq_true, beq_iff_eq] at hp
      rcases List.mem_cons.mp hc with rfl | hc
      · rw [hp.1]; exact List.mem_cons_self b bs
      · exact List.mem_cons_of_mem b (ih hp.2 hc)

theorem mem_of_strInAux {n l : List Char} {c : Char} (hin : strInAux n l = true)
    (hc : c ∈ n) : c ∈ l := by
  induction l with
  | nil =>
    have : n = [] := List.isEmpty_iff.mp hin
    subst this
    cases hc
  | cons x xs ih =>
    rcases Bool.or_eq_true_iff.mp hin with hp | hr
    · exact mem_of_isPrefixOfB hp hc
    · exact List.mem_cons_of_mem x (ih hr)

theorem strInAux_eq_false_of_space {w : String} (hw : ' ' ∈ w.data)
    {l : List Char} (hl : ∀ x ∈ l, x.isDigit = true ∨ x = '-' ∨ x = '/') :
    strInAux w.data l = false := by
  cases hT : strInAux w.data l with
  | false => rfl
  | true =>
    rcases hl _ (mem_of_strInAux hT hw) with hd | h1 | h2
    · exact absurd hd (by decide)
    · exact absurd h1 (by decide)
    · exact absurd h2 (by decide)

theorem ne_of_data_length {s w : String} (h : s.data.length ≠ w.data.length) : s ≠ w :=
  fun he => h (by rw [he])

theorem digit_ne (x : Char) (hx : x.isDigit = true) (c : Char) (hc : c.isDigit = false) :
    x ≠ c := by
  intro he
  rw [he, hc] at hx
  cases hx

/-! ## The claims -/

/-- C3: for every input whose parse yields no location, `find_events`
returns exactly the error object
`{"error": "Location is required. Please specify a city or location."}`
and the agent/adapter pipeline is never launched (0 dispatches). -/
theorem missing_location_error (input : String) (today : Date)
    (h : (parse_user_input input today).location = none) :
    find_events input today =
      (.error [("error", "Location is required. Please specify a city or location.")], 0) := by
  simp only [find_events, h]

/-- Witness for C3 at the concrete input `"find me some concerts"`. -/
theorem missing_location_error_witness :
    (parse_user_input "find me some concerts" ⟨2025, 1, 15⟩).location = none ∧
    find_events "find me some concerts" ⟨2025, 1, 15⟩ =
      (.error [("error", "Location is required. Please specify a city or location.")], 0) :=
  ⟨rfl, missing_location_error "find me some concerts" ⟨2025, 1, 15⟩ rfl⟩

/-- C9: the adapter sends `countryCode = "DE"` exactly when the location
lower-cases to `"germany"` or `"deutschland"`, and otherwise sends the
location as the free-text `city` parameter. -/
theorem country_code_mapping (apikey location : String) (date preferences : Option String) :
    ((strLower location = "germany" ∨ strLower location = "deutschland") →
      (buildParams apikey location date preferences).countryCode = some "DE" ∧
      (buildParams apikey location date preferences).city = none) ∧
    ((strLower location ≠ "germany" ∧ strLower location ≠ "deutschland") →
      (buildParams apikey location date preferences).city = some location ∧
      (buildParams apikey location date preferences).countryCode = none) := by
  constructor
  · intro h
    have hne : ¬location.data.isEmpty = true := by
      intro he
      have hnil : location.data = [] := List.isEmpty_iff.mp he
      have hempty : strLower location = String.mk [] := by
        simp [strLower, lowerData, hnil]
      rcases h with h | h <;> rw [hempty] at h <;> exact absurd h (by decide)
    have hcond : (¬location.data.isEmpty = true ∧
        (strLower location = "germany" ∨ strLower location = "deutschland")) := ⟨hne, h⟩
    cases date <;> cases preferences <;>
      refine ⟨?_, ?_⟩ <;> simp only [buildParams, if_pos hcond]
  · intro h
    have hcond : ¬(¬location.data.isEmpty = true ∧
        (strLower location = "germany" ∨ strLower location = "deutschland")) :=
      fun hc => hc.2.elim h.1 h.2
    cases date <;> cases preferences <;>
      refine ⟨?_, ?_⟩ <;> simp only [buildParams, if_neg hcond]

/-- Witness for C9 at the concrete location `"Germany"`. -/
theorem country_code_mapping_witness :
    (buildParams "k" "Germany" none none).countryCode = some "DE" ∧
    (buildParams "k" "Germany" none none).city = none :=
  (country_code_mapping "k" "Germany" none none).1 (Or.inl rfl)

/-- C7: a 200 response whose JSON object has no `_embedded` key makes
`search_events` return the empty list (no diagnostic, no error). -/
theorem missing_embedded_empty (apikey location : String) (date preferences : Option String)
    (fs : List (String × Json)) (h : jLookup fs "_embedded" = none) :
    (search_events apikey location date preferences (.resp 200 (.obj fs))).2 =
      .returned (.arr []) false := by
  simp only [search_events, pyIn, jIndexO, h]
  rw [if_neg (by decide : ¬(400 ≤ 200 ∧ 200 < 600))]
  rfl

/-- Witness for C7 at a concrete body `{"page": null}`. -/
theorem missing_embedded_empty_witness :
    jLookup [("page", Json.null)] "_embedded" = none ∧
    (search_events "k" "berlin" none none (.resp 200 (.obj [("page", Json.null)]))).2 =
      .returned (.arr []) false :=
  ⟨rfl, missing_embedded_empty "k" "berlin" none none [("page", Json.null)] rfl⟩

/-- C5 (amended part): `search_events` degrades a transport failure, and
any 4xx/5xx HTTP status, to the empty list plus the printed diagnostic. -/
theorem transport_degradation (apikey location : String) (date preferences : Option String)
    (status : Nat) (body : Json) :
    (search_events apikey location date preferences .fail).2 = .returned (.arr []) true ∧
    (400 ≤ status → status < 600 →
      (search_events apikey location date preferences (.resp status body)).2 =
        .returned (.arr []) true) := by
  constructor
  · rfl
  · intro h1 h2
    simp only [search_events]
    rw [if_pos (And.intro h1 h2)]

/-- Witness for C5 at the concrete status 503. -/
theorem transport_degradation_witness :
    400 ≤ 503 ∧ 503 < 600 ∧
    (search_events "k" "berlin" none none (.resp 503 .null)).2 = .returned (.arr []) true :=
  ⟨by decide, by decide,
    (transport_degradation "k" "berlin" none none 503 .null).2 (by decide) (by decide)⟩

/-- C5 (counterexample): contrary to "never raises an exception to the
caller", a 200 response whose event item lacks the `dates` key makes
`search_events` raise an uncaught `KeyError`. -/
theorem transport_degradation_ctrex :
    (search_events "k" "berlin" none none (.resp 200
      (.obj [("_embedded", .obj [("events", .arr [.obj []])])]))).2 = .raised .keyError := rfl

/-- C1: whenever the date pattern matches one of the six relative
phrases, `parse_user_input` resolves it against the current date by the
fixed policy of lines 43–57: today; today+1; today; today+7;
today+((5−weekday) mod 7); 7 days after that — formatted `YYYY-MM-DD`. -/
theorem relative_date_policy (input : String) (today : Date) :
    (dateSearch input = some "today" →
      (parse_user_input input today).date = some (fmtDate today)) ∧
    (dateSearch input = some "tomorrow" →
      (parse_user_input input today).date = some (fmtDate (addDays today 1))) ∧
    (dateSearch input = some "this week" →
      (parse_user_input input today).date = some (fmtDate today)) ∧
    (dateSearch input = some "next week" →
      (parse_user_input input today).date = some (fmtDate (addDays today 7))) ∧
    (dateSearch input = some "this weekend" →
      (parse_user_input input today).date =
        some (fmtDate (addDays today (weekendDelta today)))) ∧
    (dateSearch input = some "next weekend" →
      (parse_user_input input today).date =
        some (fmtDate (addDays today (weekendDelta today + 7)))) := by
  refine ⟨?_, ?_, ?_, ?_, ?_, ?_⟩ <;> intro h <;>
    · show dateOf input today = _
      unfold dateOf
      rw [h]
      rfl

/-- Witness for C1: `"find concerts in berlin today"` on 2025-01-15
(a Wednesday). -/
theorem relative_date_policy_witness :
    dateSearch "find concerts in berlin today" = some "today" ∧
    (parse_user_input "find concerts in berlin today" ⟨2025, 1, 15⟩).date =
      some "2025-01-15" := by
  have h : dateSearch "find concerts in berlin today" = some "today" := rfl
  refine ⟨h, ?_⟩
  rw [(relative_date_policy "find concerts in berlin today" ⟨2025, 1, 15⟩).1 h]
  rfl

/-- C6: the category is the first entry of the `preference_keywords`
table (in its insertion/iteration order) whose keyword occurs in the
lowered input; no keyword occurring means no category, some keyword
occurring always gives one, and at most one is ever produced. -/
theorem category_policy (input : String) (today : Date) :
    (parse_user_input input today).preferences =
      ((preference_keywords.find? fun kv => strInAux kv.1.data (lowerData input)).map
        Prod.snd) ∧
    ((parse_user_input input today).preferences = none ↔
      ∀ kv ∈ preference_keywords, strInAux kv.1.data (lowerData input) = false) ∧
    (∀ kv ∈ preference_keywords, strInAux kv.1.data (lowerData input) = true →
      ((parse_user_input input today).preferences).isSome = true) := by
  have h1 : (parse_user_input input today).preferences =
      ((preference_keywords.find? fun kv => strInAux kv.1.data (lowerData input)).map
        Prod.snd) :=
    findPreference_eq_find preference_keywords (lowerData input)
  refine ⟨h1, ?_, ?_⟩
  · rw [h1]
    simp [Option.map_eq_none', List.find?_eq_none]
  · intro kv hmem hin
    rw [h1]
    cases hfind : preference_keywords.find? fun kv => strInAux kv.1.data (lowerData input) with
    | some v => simp
    | none =>
      rw [List.find?_eq_none] at hfind
      exact absurd hin (by simp [hfind kv hmem])

/-- Witness for C6: `"music"` occurs in the input (which also contains
the later-table keyword `"dance"`), so a category is produced. -/
theorem category_policy_witness :
    ("music", "Music") ∈ preference_keywords ∧
    strInAux "music".data (lowerData "find dance and music shows") = true ∧
    ((parse_user_input "find dance and music shows" ⟨2025, 1, 15⟩).preferences).isSome =
      true :=
  ⟨by decide, rfl,
    (category_policy "find dance and music shows" ⟨2025, 1, 15⟩).2.2 ("music", "Music")
      (by decide) rfl⟩

/-- C2 (counterexample): `"what is happening in dallas"` contains
`"in dallas"` and `"dallas"` has no trailing temporal keyword, yet the
parsed location is `"is"` — the preposition alternative matched the
`"at"` inside `"what"`, which is further left. -/
theorem location_extraction_ctrex :
    strIn "in dallas" (strLower "what is happening in dallas") = true ∧
    (parse_user_input "what is happening in dallas" ⟨2025, 1, 15⟩).location = some "is" ∧
    ¬((parse_user_input "what is happening in dallas" ⟨2025, 1, 15⟩).location =
      some "dallas") := by
  have h2 : (parse_user_input "what is happening in dallas" ⟨2025, 1, 15⟩).location =
      some "is" := rfl
  refine ⟨rfl, h2, ?_⟩
  rw [h2]
  decide

/-- C2 (amended): the location is the first capture group of the
preposition pattern — the preposition may also match inside an earlier
word, and the leftmost occurrence wins.  When the leftmost match is the
`in`/`at`/`near` directly before the location phrase, the phrase is
captured whole up to the lookahead boundary: commas are kept
(`"austin, texas"`), a following temporal keyword is excluded, and the
captured text is stripped. -/
theorem location_extraction_amended :
    (parse_user_input "find music events in austin, texas" ⟨2025, 1, 15⟩).location =
      some "austin, texas" ∧
    (parse_user_input "find music events in new york this weekend" ⟨2025, 1, 15⟩).location =
      some "new york" ∧
    (parse_user_input "events near berlin tomorrow" ⟨2025, 1, 15⟩).location =
      some "berlin" ∧
    locSearch "in   " = some "" :=
  ⟨rfl, rfl, rfl, rfl⟩

/-- C4 (counterexample): an event item that merely lacks the `dates` key
does not degrade field-by-field — the whole mapping raises `KeyError`
(line 182 indexes `event['dates']` directly). -/
theorem field_degradation_ctrex :
    formatEvent (.obj [("name", .str "Concert")]) = .error .keyError := rfl

theorem formatEvent_price (fs : List (String × Json)) (r : EventRecord)
    (h : formatEvent (.obj fs) = .ok r) : priceOf fs = .ok r.price_range := by
  simp only [formatEvent, except_bind_ok_iff] at h
  obtain ⟨dates, hD, start, hS, ld, hLD, lt, hLT, so, hSO, sc, hSC, price, hP, v, hV, hpure⟩ := h
  simp only [pure, Except.pure, Except.ok.injEq] at hpure
  subst hpure
  exact hP

/-- C8: a mapped record's price field is the literal
`"Price not available"` when the item's `priceRanges` is absent (or
falsy), and otherwise the string `"{min} - {max} {currency}"` built from
the first price tier with per-field defaults `N/A`/`N/A`/`USD`. -/
theorem price_mapping (event : Json) (r : EventRecord) (h : formatEvent event = .ok r) :
    (∀ fs, event = .obj fs →
      jTruthy ((jLookup fs "priceRanges").getD .null) = false →
      r.price_range = "Price not available") ∧
    (∀ fs prfs rest, event = .obj fs →
      jLookup fs "priceRanges" = some (.arr (.obj prfs :: rest)) →
      r.price_range =
        pyStr ((jLookup prfs "min").getD (.str "N/A")) ++ " - " ++
        pyStr ((jLookup prfs "max").getD (.str "N/A")) ++ " " ++
        pyStr ((jLookup prfs "currency").getD (.str "USD"))) := by
  constructor
  · intro fs hfs hfalse
    subst hfs
    have hp := formatEvent_price fs r h
    unfold priceOf at hp
    rw [if_neg (by simp [hfalse])] at hp
    exact ((Except.ok.injEq _ _).mp hp).symm
  · intro fs prfs rest hfs hpr
    subst hfs
    have hp := formatEvent_price fs r h
    unfold priceOf jIndexO at hp
    rw [hpr] at hp
    simp only [Option.getD_some] at hp
    rw [if_pos (by simp [jTruthy])] at hp
    exact ((Except.ok.injEq _ _).mp hp).symm

/-- Witness for C8: the theorem applied to an event with a
`{min: 10, max: 50, currency: EUR}` price tier. -/
theorem price_mapping_witness :
    formatEvent (.obj [("dates", .obj [("start", .obj []), ("status", .obj [])]),
        ("_embedded", .obj [("venues", .arr [.obj []])]),
        ("priceRanges", .arr [.obj [("min", .num 10), ("max", .num 50),
          ("currency", .str "EUR")]])]) =
      .ok ⟨.str "No event name", .str "TBA", .str "TBA", .str "No event description",
        .str "Unknown", .str "Not available", "10 - 50 EUR",
        .str "Unknown venue", .str "N/A", .str "N/A", .null, .null⟩ ∧
    EventRecord.price_range
      ⟨.str "No event name", .str "TBA", .str "TBA", .str "No event description",
        .str "Unknown", .str "Not available", "10 - 50 EUR",
        .str "Unknown venue", .str "N/A", .str "N/A", .null, .null⟩ = "10 - 50 EUR" := by
  have h1 : formatEvent (.obj [("dates", .obj [("start", .obj []), ("status", .obj [])]),
      ("_embedded", .obj [("venues", .arr [.obj []])]),
      ("priceRanges", .arr [.obj [("min", .num 10), ("max", .num 50),
        ("currency", .str "EUR")]])]) =
      .ok ⟨.str "No event name", .str "TBA", .str "TBA", .str "No event description",
        .str "Unknown", .str "Not available", "10 - 50 EUR",
        .str "Unknown venue", .str "N/A", .str "N/A", .null, .null⟩ := rfl
  refine ⟨h1, ?_⟩
  exact (price_mapping _ _ h1).2 _ _ [] rfl rfl

theorem mk_ne_of_length {l : List Char} {w : String} (h : l.length ≠ w.data.length) :
    ¬(String.mk l = w) :=
  fun he => h (by rw [← he])

theorem dateResolve_dash_malformed (a b c d e f g h : Char) (today : Date)
    (hdig : ∀ x ∈ [a, b, c, d, e, f, g, h], x.isDigit = true)
    (hbad : parseYMDDash [a, b, c, d, '-', e, f, '-', g, h] = none) :
    dateResolve (String.mk [a, b, c, d, '-', e, f, '-', g, h]) today = (none, true) := by
  have hchars : ∀ x ∈ [a, b, c, d, '-', e, f, '-', g, h],
      x.isDigit = true ∨ x = '-' ∨ x = '/' := by
    intro x hx
    simp only [List.mem_cons, List.not_mem_nil, or_false] at hx
    rcases hx with rfl | rfl | rfl | rfl | rfl | rfl | rfl | rfl | rfl | rfl <;>
      first
      | exact Or.inr (Or.inl rfl)
      | exact Or.inl (hdig _ (by simp))
  have hne1 : ¬(String.mk [a, b, c, d, '-', e, f, '-', g, h] = "today") := by
    refine mk_ne_of_length ?_
    rw [show ("today" : String).data = ['t', 'o', 'd', 'a', 'y'] from rfl]
    simp
  have hne2 : ¬(String.mk [a, b, c, d, '-', e, f, '-', g, h] = "tomorrow") := by
    refine mk_ne_of_length ?_
    rw [show ("tomorrow" : String).data = ['t', 'o', 'm', 'o', 'r', 'r', 'o', 'w'] from rfl]
    simp
  have nt : ∀ w : String, ' ' ∈ w.data →
      ¬(strIn w (String.mk [a, b, c, d, '-', e, f, '-', g, h]) = true) := by
    intro w hw hT
    have hf : strInAux w.data [a, b, c, d, '-', e, f, '-', g, h] = false :=
      strInAux_eq_false_of_space hw hchars
    rw [show strIn w (String.mk [a, b, c, d, '-', e, f, '-', g, h]) =
        strInAux w.data [a, b, c, d, '-', e, f, '-', g, h] from rfl, hf] at hT
    cases hT
  unfold dateResolve
  rw [show (String.mk [a, b, c, d, '-', e, f, '-', g, h]).data =
      [a, b, c, d, '-', e, f, '-', g, h] from rfl]
  rw [if_neg hne1, if_neg hne2, if_neg (nt _ (by decide)), if_neg (nt _ (by decide)),
    if_neg (nt _ (by decide)), if_neg (nt _ (by decide)),
    if_pos (hasChar_of_mem (by simp) :
      hasChar [a, b, c, d, '-', e, f, '-', g, h] '-' = true), hbad]

theorem dateResolve_slash_malformed (a b c d e f g h : Char) (today : Date)
    (hdig : ∀ x ∈ [a, b, c, d, e, f, g, h], x.isDigit = true)
    (hbad : parseDMYSlash [a, b, '/', c, d, '/', e, f, g, h] = none) :
    dateResolve (String.mk [a, b, '/', c, d, '/', e, f, g, h]) today = (none, true) := by
  have hchars : ∀ x ∈ [a, b, '/', c, d, '/', e, f, g, h],
      x.isDigit = true ∨ x = '-' ∨ x = '/' := by
    intro x hx
    simp only [List.mem_cons, List.not_mem_nil, or_false] at hx
    rcases hx with rfl | rfl | rfl | rfl | rfl | rfl | rfl | rfl | rfl | rfl <;>
      first
      | exact Or.inr (Or.inr rfl)
      | exact Or.inl (hdig _ (by simp))
  have hne1 : ¬(String.mk [a, b, '/', c, d, '/', e, f, g, h] = "today") := by
    refine mk_ne_of_length ?_
    rw [show ("today" : String).data = ['t', 'o', 'd', 'a', 'y'] from rfl]
    simp
  have hne2 : ¬(String.mk [a, b, '/', c, d, '/', e, f, g, h] = "tomorrow") := by
    refine mk_ne_of_length ?_
    rw [show ("tomorrow" : String).data = ['t', 'o', 'm', 'o', 'r', 'r', 'o', 'w'] from rfl]
    simp
  have nt : ∀ w : String, ' ' ∈ w.data →
      ¬(strIn w (String.mk [a, b, '/', c, d, '/', e, f, g, h]) = true) := by
    intro w hw hT
    have hf : strInAux w.data [a, b, '/', c, d, '/', e, f, g, h] = false :=
      strInAux_eq_false_of_space hw hchars
    rw [show strIn w (String.mk [a, b, '/', c, d, '/', e, f, g, h]) =
        strInAux w.data [a, b, '/', c, d, '/', e, f, g, h] from rfl, hf] at hT
    cases hT
  have hnodash : ∀ x ∈ [a, b, '/', c, d, '/', e, f, g, h], x ≠ '-' := by
    intro x hx
    simp only [List.mem_cons, List.not_mem_nil, or_false] at hx
    rcases hx with rfl | rfl | rfl | rfl | rfl | rfl | rfl | rfl | rfl | rfl <;>
      first
      | decide
      | exact digit_ne _ (hdig _ (by simp)) '-' (by decide)
  unfold dateResolve
  rw [show (String.mk [a, b, '/', c, d, '/', e, f, g, h]).data =
      [a, b, '/', c, d, '/', e, f, g, h] from rfl]
  rw [if_neg hne1, if_neg hne2, if_neg (nt _ (by decide)), if_neg (nt _ (by decide)),
    if_neg (nt _ (by decide)), if_neg (nt _ (by decide)),
    if_neg (by simp [hasChar_eq_false hnodash]),
    if_pos (hasChar_of_mem (by simp) :
      hasChar [a, b, '/', c, d, '/', e, f, g, h] '/' = true), hbad]

/-- C10 (amended): when the first match of the date pattern in the input
is itself a malformed literal date (`\d{4}-\d{2}-\d{2}` or
`\d{2}/\d{2}/\d{4}` shaped text that `strptime` rejects),
`parse_user_input` leaves the date absent, signals the non-fatal warning,
and the location and preference fields are unaffected. -/
theorem malformed_literal_date (input : String) (today : Date) :
    (∀ a b c d e f g h : Char,
      (∀ x ∈ [a, b, c, d, e, f, g, h], x.isDigit = true) →
      dateSearch input = some (String.mk [a, b, c, d, '-', e, f, '-', g, h]) →
      parseYMDDash [a, b, c, d, '-', e, f, '-', g, h] = none →
      (parse_user_input input today).date = none ∧
      dateWarned input today = true ∧
      (parse_user_input input today).location = locSearch input ∧
      (parse_user_input input today).preferences =
        findPreference preference_keywords (lowerData input)) ∧
    (∀ a b c d e f g h : Char,
      (∀ x ∈ [a, b, c, d, e, f, g, h], x.isDigit = true) →
      dateSearch input = some (String.mk [a, b, '/', c, d, '/', e, f, g, h]) →
      parseDMYSlash [a, b, '/', c, d, '/', e, f, g, h] = none →
      (parse_user_input input today).date = none ∧
      dateWarned input today = true ∧
      (parse_user_input input today).location = locSearch input ∧
      (parse_user_input input today).preferences =
        findPreference preference_keywords (lowerData input)) := by
  constructor
  · intro a b c d e f g h hdig hsearch hbad
    refine ⟨?_, ?_, rfl, rfl⟩
    · show dateOf input today = none
      unfold dateOf
      rw [hsearch]
      show (dateResolve (String.mk [a, b, c, d, '-', e, f, '-', g, h]) today).1 = none
      rw [dateResolve_dash_malformed a b c d e f g h today hdig hbad]
    · show dateWarned input today = true
      unfold dateWarned
      rw [hsearch]
      show (dateResolve (String.mk [a, b, c, d, '-', e, f, '-', g, h]) today).2 = true
      rw [dateResolve_dash_malformed a b c d e f g h today hdig hbad]
  · intro a b c d e f g h hdig hsearch hbad
    refine ⟨?_, ?_, rfl, rfl⟩
    · show dateOf input today = none
      unfold dateOf
      rw [hsearch]
      show (dateResolve (String.mk [a, b, '/', c, d, '/', e, f, g, h]) today).1 = none
      rw [dateResolve_slash_malformed a b c d e f g h today hdig hbad]
    · show dateWarned input today = true
      unfold dateWarned
      rw [hsearch]
      show (dateResolve (String.mk [a, b, '/', c, d, '/', e, f, g, h]) today).2 = true
      rw [dateResolve_slash_malformed a b c d e f g h today hdig hbad]

/-- C10 (counterexample): `"today 99/99/9999"` contains the malformed
literal date `"99/99/9999"`, yet the date field is present (the leftmost
date-pattern match is `"today"`) and no warning is signalled. -/
theorem malformed_literal_date_ctrex :
    strIn "99/99/9999" "today 99/99/9999" = true ∧
    parseDMYSlash ("99/99/9999" : String).data = none ∧
    (parse_user_input "today 99/99/9999" ⟨2025, 1, 15⟩).date = some "2025-01-15" ∧
    dateWarned "today 99/99/9999" ⟨2025, 1, 15⟩ = false :=
  ⟨rfl, rfl, rfl, rfl⟩

/-- Witness for C10: `"events in oslo 2025-02-30"` — the matched literal
is 2025-02-30, which is not a valid calendar date. -/
theorem malformed_literal_date_witness :
    dateSearch "events in oslo 2025-02-30" =
      some (String.mk ['2', '0', '2', '5', '-', '0', '2', '-', '3', '0']) ∧
    (parse_user_input "events in oslo 2025-02-30" ⟨2025, 1, 15⟩).date = none ∧
    dateWarned "events in oslo 2025-02-30" ⟨2025, 1, 15⟩ = true := by
  have hsearch : dateSearch "events in oslo 2025-02-30" =
      some (String.mk ['2', '0', '2', '5', '-', '0', '2', '-', '3', '0']) := rfl
  have h := (malformed_literal_date "events in oslo 2025-02-30" ⟨2025, 1, 15⟩).1
    '2' '0' '2' '5' '0' '2' '3' '0' (by decide) hsearch rfl
  exact ⟨hsearch, h.1, h.2.1⟩

theorem except_bind_ok_red {ε α β : Type} (a : α) (f : α → Except ε β) :
    ((.ok a : Except ε α) >>= f) = f a := rfl

theorem except_bind_error_red {ε α β : Type} (e : ε) (f : α → Except ε β) :
    ((.error e : Except ε α) >>= f) = .error e := rfl

theorem formatEvent_fields (fs : List (String × Json)) (r : EventRecord)
    (h : formatEvent (.obj fs) = .ok r) :
    r.name = (jLookup fs "name").getD (.str "No event name") ∧
    r.ticket_url = (jLookup fs "url").getD (.str "Not available") ∧
    r.description = (jLookup fs "description").getD (.str "No event description") ∧
    (∃ dates start, jIndexO fs "dates" = .ok dates ∧ jIndex dates "start" = .ok start ∧
      pyGetD start "localDate" (.str "TBA") = .ok r.date ∧
      pyGetD start "localTime" (.str "TBA") = .ok r.time) ∧
    (∃ dates so, jIndexO fs "dates" = .ok dates ∧ jIndex dates "status" = .ok so ∧
      pyGetD so "code" (.str "Unknown") = .ok r.status) ∧
    venueOf fs = .ok (r.venue, r.city, r.state, r.latitude, r.longitude) := by
  simp only [formatEvent, except_bind_ok_iff] at h
  obtain ⟨dates, hD, start, hS, ld, hLD, lt, hLT, so, hSO, sc, hSC, price, hP, v, hV,
    hpure⟩ := h
  simp only [pure, Except.pure, Except.ok.injEq] at hpure
  subst hpure
  exact ⟨rfl, rfl, rfl, ⟨dates, start, hD, hS, hLD, hLT⟩, ⟨dates, so, hD, hSO, hSC⟩, hV⟩

theorem venueOf_fields (fs : List (String × Json))
    (t : Json × Json × Json × Json × Json) (h : venueOf fs = .ok t)
    (efs vfs : List (String × Json)) (rest : List Json)
    (hemb : jLookup fs "_embedded" = some (.obj efs))
    (hvens : jLookup efs "venues" = some (.arr (.obj vfs :: rest))) :
    t.1 = (jLookup vfs "name").getD (.str "Unknown venue") ∧
    pyGetD ((jLookup vfs "city").getD (.obj [])) "name" (.str "N/A") = .ok t.2.1 ∧
    pyGetD ((jLookup vfs "state").getD (.obj [])) "name" (.str "N/A") = .ok t.2.2.1 ∧
    pyGetD ((jLookup vfs "location").getD (.obj [])) "latitude" .null = .ok t.2.2.2.1 ∧
    pyGetD ((jLookup vfs "location").getD (.obj [])) "longitude" .null = .ok t.2.2.2.2 := by
  simp only [venueOf, jIndexO, jIndex, hemb, hvens] at h
  split at h
  · exact Except.noConfusion h
  rename_i cityName hcity
  split at h
  · exact Except.noConfusion h
  rename_i stateName hstate
  split at h
  · exact Except.noConfusion h
  rename_i lat hlat
  split at h
  · exact Except.noConfusion h
  rename_i lng hlng
  rw [Except.ok.injEq] at h
  subst h
  exact ⟨rfl, hcity, hstate, hlat, hlng⟩

/-- C4 (amended): for every event item, the response mapping degrades
each leaf field independently to its documented default when absent
(name, localDate/localTime `TBA`, status code `Unknown`, ticket URL
`Not available`, description, price `Price not available`, venue name
`Unknown venue`, city/state `N/A`, coordinates null), and a produced
record always contains every key; but the containers `event['dates']`
(with its `start` and `status` sub-objects) and
`event['_embedded']['venues'][0]` are hard-indexed: a missing `dates`,
`start`, `status`, `_embedded` or `venues` key raises an uncaught
`KeyError`, and an empty `venues` list an uncaught `IndexError`,
failing the whole item instead of degrading. -/
theorem field_degradation (fs : List (String × Json)) :
    (∀ r, formatEvent (.obj fs) = .ok r →
      (jLookup fs "name" = none → r.name = .str "No event name") ∧
      (jLookup fs "url" = none → r.ticket_url = .str "Not available") ∧
      (jLookup fs "description" = none → r.description = .str "No event description") ∧
      (jTruthy ((jLookup fs "priceRanges").getD .null) = false →
        r.price_range = "Price not available") ∧
      (∀ dfs sfs, jLookup fs "dates" = some (.obj dfs) →
        jLookup dfs "start" = some (.obj sfs) →
        (jLookup sfs "localDate" = none → r.date = .str "TBA") ∧
        (jLookup sfs "localTime" = none → r.time = .str "TBA")) ∧
      (∀ dfs stfs, jLookup fs "dates" = some (.obj dfs) →
        jLookup dfs "status" = some (.obj stfs) →
        jLookup stfs "code" = none → r.status = .str "Unknown") ∧
      (∀ efs vfs rest, jLookup fs "_embedded" = some (.obj efs) →
        jLookup efs "venues" = some (.arr (.obj vfs :: rest)) →
        (jLookup vfs "name" = none → r.venue = .str "Unknown venue") ∧
        (jLookup vfs "city" = none → r.city = .str "N/A") ∧
        (jLookup vfs "state" = none → r.state = .str "N/A") ∧
        (jLookup vfs "location" = none → r.latitude = .null ∧ r.longitude = .null))) ∧
    (jLookup fs "dates" = none → formatEvent (.obj fs) = .error .keyError) ∧
    (∀ dfs, jLookup fs "dates" = some (.obj dfs) → jLookup dfs "start" = none →
      formatEvent (.obj fs) = .error .keyError) ∧
    (∀ dfs sfs, jLookup fs "dates" = some (.obj dfs) →
      jLookup dfs "start" = some (.obj sfs) → jLookup dfs "status" = none →
      formatEvent (.obj fs) = .error .keyError) ∧
    (∀ dfs sfs stfs p, jLookup fs "dates" = some (.obj dfs) →
      jLookup dfs "start" = some (.obj sfs) →
      jLookup dfs "status" = some (.obj stfs) → priceOf fs = .ok p →
      (jLookup fs "_embedded" = none → formatEvent (.obj fs) = .error .keyError) ∧
      (∀ efs, jLookup fs "_embedded" = some (.obj efs) →
        jLookup efs "venues" = none → formatEvent (.obj fs) = .error .keyError) ∧
      (∀ efs, jLookup fs "_embedded" = some (.obj efs) →
        jLookup efs "venues" = some (.arr []) →
        formatEvent (.obj fs) = .error .indexError)) := by
  refine ⟨?_, ?_, ?_, ?_, ?_⟩
  · intro r h
    obtain ⟨hname, hurl, hdesc, ⟨dates, start, hD, hS, hLD, hLT⟩,
      ⟨dates2, so, hD2, hSO, hSC⟩, hV⟩ := formatEvent_fields fs r h
    refine ⟨?_, ?_, ?_, ?_, ?_, ?_, ?_⟩
    · intro hn
      rw [hn] at hname
      simpa using hname
    · intro hn
      rw [hn] at hurl
      simpa using hurl
    · intro hn
      rw [hn] at hdesc
      simpa using hdesc
    · intro hf
      have hp := formatEvent_price fs r h
      unfold priceOf at hp
      rw [if_neg (by simp [hf])] at hp
      exact ((Except.ok.injEq _ _).mp hp).symm
    · intro dfs sfs hdfs hsfs
      simp only [jIndexO, hdfs, Except.ok.injEq] at hD
      subst hD
      simp only [jIndex, jIndexO, hsfs, Except.ok.injEq] at hS
      subst hS
      simp only [pyGetD, Except.ok.injEq] at hLD hLT
      constructor
      · intro hnone
        rw [hnone] at hLD
        simpa using hLD.symm
      · intro hnone
        rw [hnone] at hLT
        simpa using hLT.symm
    · intro dfs stfs hdfs hstfs hnone
      simp only [jIndexO, hdfs, Except.ok.injEq] at hD2
      subst hD2
      simp only [jIndex, jIndexO, hstfs, Except.ok.injEq] at hSO
      subst hSO
      simp only [pyGetD, Except.ok.injEq] at hSC
      rw [hnone] at hSC
      simpa using hSC.symm
    · intro efs vfs rest hemb hvens
      have hvf := venueOf_fields fs _ hV efs vfs rest hemb hvens
      refine ⟨?_, ?_, ?_, ?_⟩
      · intro hn
        have := hvf.1
        rw [hn] at this
        simpa using this
      · intro hn
        have := hvf.2.1
        rw [hn] at this
        simp only [Option.getD_none, pyGetD, Except.ok.injEq] at this
        simpa using this.symm
      · intro hn
        have := hvf.2.2.1
        rw [hn] at this
        simp only [Option.getD_none, pyGetD, Except.ok.injEq] at this
        simpa using this.symm
      · intro hn
        have h1 := hvf.2.2.2.1
        have h2 := hvf.2.2.2.2
        rw [hn] at h1 h2
        simp only [Option.getD_none, pyGetD, Except.ok.injEq] at h1 h2
        exact ⟨by simpa using h1.symm, by simpa using h2.symm⟩
  · intro h
    simp only [formatEvent, jIndexO, h]
    rfl
  · intro dfs hdfs hstart
    simp only [formatEvent, jIndexO, jIndex, hdfs, hstart, except_bind_ok_red,
      except_bind_error_red]
  · intro dfs sfs hdfs hsfs hstatus
    simp only [formatEvent, jIndexO, jIndex, pyGetD, hdfs, hsfs, hstatus,
      except_bind_ok_red, except_bind_error_red]
  · intro dfs sfs stfs p hdfs hsfs hstfs hP
    refine ⟨?_, ?_, ?_⟩
    · intro hembnone
      simp only [formatEvent, jIndexO, jIndex, pyGetD, venueOf, hdfs, hsfs, hstfs, hP,
        hembnone, except_bind_ok_red, except_bind_error_red]
    · intro efs hemb hvensnone
      simp only [formatEvent, jIndexO, jIndex, pyGetD, venueOf, hdfs, hsfs, hstfs, hP,
        hemb, hvensnone, except_bind_ok_red, except_bind_error_red]
    · intro efs hemb hvens
      simp only [formatEvent, jIndexO, jIndex, pyGetD, venueOf, hdfs, hsfs, hstfs, hP,
        hemb, hvens, except_bind_ok_red, except_bind_error_red]

/-- Witness for C4: the empty event object raises `KeyError`, and on a
minimal event with the containers present but every leaf absent the
theorem gives the `TBA` default for the date. -/
theorem field_degradation_witness :
    jLookup ([] : List (String × Json)) "dates" = none ∧
    formatEvent (.obj []) = .error .keyError ∧
    formatEvent (.obj [("dates", .obj [("start", .obj []), ("status", .obj [])]),
        ("_embedded", .obj [("venues", .arr [.obj []])])]) =
      .ok ⟨.str "No event name", .str "TBA", .str "TBA", .str "No event description",
        .str "Unknown", .str "Not available", "Price not available",
        .str "Unknown venue", .str "N/A", .str "N/A", .null, .null⟩ ∧
    EventRecord.date
      ⟨.str "No event name", .str "TBA", .str "TBA", .str "No event description",
        .str "Unknown", .str "Not available", "Price not available",
        .str "Unknown venue", .str "N/A", .str "N/A", .null, .null⟩ = .str "TBA" := by
  have hok : formatEvent (.obj [("dates", .obj [("start", .obj []), ("status", .obj [])]),
      ("_embedded", .obj [("venues", .arr [.obj []])])]) =
      .ok ⟨.str "No event name", .str "TBA", .str "TBA", .str "No event description",
        .str "Unknown", .str "Not available", "Price not available",
        .str "Unknown venue", .str "N/A", .str "N/A", .null, .null⟩ := rfl
  refine ⟨rfl, (field_degradation []).2.1 rfl, hok, ?_⟩
  exact (((field_degradation _).1 _ hok).2.2.2.2.1 [("start", .obj []), ("status", .obj [])]
    [] rfl rfl).1 rfl
